import Mathlib

/-!
Shallow embedding of the TradingAgents execution core, translated from the
repository sources:

  tradingagents/agents/managers/risk_manager.py
  tradingagents/agents/researchers/bull_researcher.py
  tradingagents/agents/researchers/bear_researcher.py
  tradingagents/agents/risk_mgmt/conservative_debator.py
  tradingagents/agents/analysts/market_analyst.py
  tradingagents/agents/analysts/fundamentals_analyst.py
  tradingagents/graph/trading_graph.py

The text-generation capability (llm.invoke) is an external collaborator:
each node receives the response content for its single generation call as an
explicit argument, quantified universally in the theorems, which covers every
possible response.  The episodic memory get_memories call is passed as a
function argument; where a claim is about the call itself, the node output
records the (situation, n_matches) arguments that the source passes at its
single get_memories call site.  On-disk run logging (_log_state) is not
modelled.
-/

/-- One requested tool call attached to a generation response
(langchain result.tool_calls entry; only its presence matters to the core). -/
structure ToolCall where
  name : String
deriving Repr, DecidableEq

/-- A generation response: text content plus the list of requested tool calls
(the AIMessage returned by chain.invoke / llm.invoke). -/
structure LLMResult where
  content : String
  tool_calls : List ToolCall
deriving Repr, DecidableEq

/-- A record returned by memory.get_memories; the nodes read only its
recommendation text. -/
structure MemRec where
  recommendation : String
deriving Repr, DecidableEq

/-- The episodic memory interface: get_memories(situation, n_matches). -/
def Memory : Type := String → Nat → List MemRec

/-- InvestDebateState from agents/utils/agent_states.py as used by the
researcher nodes: histories, current response, judge decision, turn counter. -/
structure InvestDebateState where
  history : String
  bull_history : String
  bear_history : String
  current_response : String
  judge_decision : String
  count : Nat
deriving Repr, DecidableEq

/-- RiskDebateState as used by the risk debators and the risk manager. -/
structure RiskDebateState where
  history : String
  risky_history : String
  safe_history : String
  neutral_history : String
  latest_speaker : String
  current_risky_response : String
  current_safe_response : String
  current_neutral_response : String
  judge_decision : String
  count : Nat
deriving Repr, DecidableEq

/-- The shared AgentState threaded through the graph: subject, date, the four
analyst reports, the two debate states, plans, final decision and the
message log.  The Python TypedDict accesses every field the nodes use either
directly or with a default; the embedding keeps all fields total. -/
structure AgentState where
  company_of_interest : String
  trade_date : String
  market_report : String
  sentiment_report : String
  news_report : String
  fundamentals_report : String
  investment_debate_state : InvestDebateState
  risk_debate_state : RiskDebateState
  investment_plan : String
  trader_investment_plan : String
  final_trade_decision : String
  messages : List LLMResult
deriving Repr, DecidableEq

/-- bull_node from researchers/bull_researcher.py (lines 27-117).  The llm
response content is the `response_content` argument; the memory lookup
(line 44, n_matches=2) feeds only the prompt, hence only the response.
The node returns the one-key patch \x7b"investment_debate_state": ...\x7d;
the embedding returns that new InvestDebateState. -/
def bull_node (memory : Memory) (response_content : String)
    (state : AgentState) : InvestDebateState :=
  let investment_debate_state := state.investment_debate_state
  let history := investment_debate_state.history
  let bull_history := investment_debate_state.bull_history
  let market_research_report := state.market_report
  let sentiment_report := state.sentiment_report
  let news_report := state.news_report
  let fundamentals_report := state.fundamentals_report
  let curr_situation := market_research_report ++ "\n\n" ++ sentiment_report
      ++ "\n\n" ++ news_report ++ "\n\n" ++ fundamentals_report
  let _past_memories := memory curr_situation 2
  let argument := "Bull Analyst: " ++ response_content
  { history := history ++ "\n" ++ argument
    bull_history := bull_history ++ "\n" ++ argument
    bear_history := investment_debate_state.bear_history
    current_response := argument
    judge_decision := investment_debate_state.judge_decision
    count := investment_debate_state.count + 1 }

/-- bear_node from researchers/bear_researcher.py (lines 27-121), symmetric
to bull_node with the bear history appended instead. -/
def bear_node (memory : Memory) (response_content : String)
    (state : AgentState) : InvestDebateState :=
  let investment_debate_state := state.investment_debate_state
  let history := investment_debate_state.history
  let bear_history := investment_debate_state.bear_history
  let market_research_report := state.market_report
  let sentiment_report := state.sentiment_report
  let news_report := state.news_report
  let fundamentals_report := state.fundamentals_report
  let curr_situation := market_research_report ++ "\n\n" ++ sentiment_report
      ++ "\n\n" ++ news_report ++ "\n\n" ++ fundamentals_report
  let _past_memories := memory curr_situation 2
  let argument := "Bear Analyst: " ++ response_content
  { history := history ++ "\n" ++ argument
    bear_history := bear_history ++ "\n" ++ argument
    bull_history := investment_debate_state.bull_history
    current_response := argument
    judge_decision := investment_debate_state.judge_decision
    count := investment_debate_state.count + 1 }

/-- safe_node from risk_mgmt/conservative_debator.py (lines 27-115): the
conservative risk debator.  It makes no memory call; the llm response content
is the argument.  Returns the new RiskDebateState of the one-key patch. -/
def safe_node (response_content : String) (state : AgentState) :
    RiskDebateState :=
  let risk_debate_state := state.risk_debate_state
  let history := risk_debate_state.history
  let safe_history := risk_debate_state.safe_history
  let argument := "Safe Analyst: " ++ response_content
  { history := history ++ "\n" ++ argument
    risky_history := risk_debate_state.risky_history
    safe_history := safe_history ++ "\n" ++ argument
    neutral_history := risk_debate_state.neutral_history
    latest_speaker := "Safe"
    current_risky_response := risk_debate_state.current_risky_response
    current_safe_response := argument
    current_neutral_response := risk_debate_state.current_neutral_response
    judge_decision := risk_debate_state.judge_decision
    count := risk_debate_state.count + 1 }

/-- The situation text the risk manager builds for memory recall
(managers/risk_manager.py lines 36-43).  Line 38 of the source reads the
fundamentals component from the news_report field:
fundamentals_report = state["news_report"]. -/
def risk_manager_curr_situation (state : AgentState) : String :=
  let market_research_report := state.market_report
  let news_report := state.news_report
  let fundamentals_report := state.news_report
  let sentiment_report := state.sentiment_report
  market_research_report ++ "\n\n" ++ sentiment_report ++ "\n\n"
    ++ news_report ++ "\n\n" ++ fundamentals_report

/-- Output of risk_manager_node: the new RiskDebateState and the
final_trade_decision of the returned patch (lines 109-126), plus the list of
(situation, n_matches) argument pairs the node passes to memory.get_memories
(the single call at line 46). -/
structure RiskManagerResult where
  risk_debate_state : RiskDebateState
  final_trade_decision : String
  memory_calls : List (String × Nat)
deriving Repr, DecidableEq

/-- risk_manager_node from managers/risk_manager.py (lines 27-126).  The llm
response content is the `response_content` argument; the past memories
retrieved at line 46 feed only the prompt. -/
def risk_manager_node (memory : Memory) (response_content : String)
    (state : AgentState) : RiskManagerResult :=
  let risk_debate_state := state.risk_debate_state
  let curr_situation := risk_manager_curr_situation state
  let past_memories := memory curr_situation 2
  let _past_memory_str :=
    past_memories.foldl (fun acc rec => acc ++ rec.recommendation ++ "\n\n") ""
  let new_risk_debate_state : RiskDebateState :=
    { judge_decision := response_content
      history := risk_debate_state.history
      risky_history := risk_debate_state.risky_history
      safe_history := risk_debate_state.safe_history
      neutral_history := risk_debate_state.neutral_history
      latest_speaker := "Judge"
      current_risky_response := risk_debate_state.current_risky_response
      current_safe_response := risk_debate_state.current_safe_response
      current_neutral_response := risk_debate_state.current_neutral_response
      count := risk_debate_state.count }
  { risk_debate_state := new_risk_debate_state
    final_trade_decision := response_content
    memory_calls := [(curr_situation, 2)] }

/-- The data-fetch tools the two embedded analysts may bind
(trading_graph.py _create_tool_nodes and the analyst modules). -/
inductive Tool where
  | get_YFin_data_online
  | get_stockstats_indicators_report_online
  | get_YFin_data
  | get_stockstats_indicators_report
  | get_fundamentals_openai
  | get_finnhub_company_insider_sentiment
  | get_finnhub_company_insider_transactions
  | get_simfin_balance_sheet
  | get_simfin_cashflow
  | get_simfin_income_stmt
deriving Repr, DecidableEq

/-- The slice of the shared config the analysts read: the online_tools flag. -/
structure ToolkitConfig where
  online_tools : Bool
deriving Repr, DecidableEq

/-- The toolkit handed to each analyst; the analysts read toolkit.config. -/
structure Toolkit where
  config : ToolkitConfig
deriving Repr, DecidableEq

/-- Output of market_analyst_node: the two keys of the returned patch
(messages, market_report) plus the tool list the node selected and bound at
this invocation (market_analyst.py lines 34-45 and 165). -/
structure MarketAnalystResult where
  messages : List LLMResult
  market_report : String
  tools : List Tool
deriving Repr, DecidableEq

/-- market_analyst_node from analysts/market_analyst.py (lines 27-181).
The chain (prompt | llm.bind_tools(tools)) is the external generation
capability: `chain_invoke tools state.messages` stands for
chain.invoke(state["messages"]) with the given bound tool list. -/
def market_analyst_node (toolkit : Toolkit)
    (chain_invoke : List Tool → List LLMResult → LLMResult)
    (state : AgentState) : MarketAnalystResult :=
  let tools :=
    if toolkit.config.online_tools then
      [Tool.get_YFin_data_online, Tool.get_stockstats_indicators_report_online]
    else
      [Tool.get_YFin_data, Tool.get_stockstats_indicators_report]
  let result := chain_invoke tools state.messages
  let report := if result.tool_calls.length = 0 then result.content else ""
  { messages := [result], market_report := report, tools := tools }

/-- Output of fundamentals_analyst_node: the two keys of the returned patch
plus the tool list selected at this invocation
(fundamentals_analyst.py lines 34-45 and 111). -/
structure FundamentalsAnalystResult where
  messages : List LLMResult
  fundamentals_report : String
  tools : List Tool
deriving Repr, DecidableEq

/-- fundamentals_analyst_node from analysts/fundamentals_analyst.py
(lines 27-127), with the chain abstracted as in market_analyst_node. -/
def fundamentals_analyst_node (toolkit : Toolkit)
    (chain_invoke : List Tool → List LLMResult → LLMResult)
    (state : AgentState) : FundamentalsAnalystResult :=
  let tools :=
    if toolkit.config.online_tools then
      [Tool.get_fundamentals_openai]
    else
      [Tool.get_finnhub_company_insider_sentiment,
       Tool.get_finnhub_company_insider_transactions,
       Tool.get_simfin_balance_sheet,
       Tool.get_simfin_cashflow,
       Tool.get_simfin_income_stmt]
  let result := chain_invoke tools state.messages
  let report := if result.tool_calls.length = 0 then result.content else ""
  { messages := [result], fundamentals_report := report, tools := tools }

/-- A per-role memory store: the ordered list of records held by one
FinancialSituationMemory instance. -/
def Mem : Type := List MemRec

/-- A reflector call (reflection.py, external to the provided sources):
given the current state held by the orchestrator (None before any run), the
realized returns, and the role memory, it either returns the grown memory or
raises, modelled as Except. -/
def Reflector : Type := Option AgentState → Int → Mem → Except String Mem

/-- The mutable attributes of TradingAgentsGraph relevant to the claims
(trading_graph.py lines 104-108 and 133-136): the five per-role memories,
the most recent terminal state, and the ticker. -/
structure TradingAgentsGraphState where
  curr_state : Option AgentState
  ticker : Option String
  bull_memory : Mem
  bear_memory : Mem
  trader_memory : Mem
  invest_judge_memory : Mem
  risk_manager_memory : Mem

/-- The attribute values set by TradingAgentsGraph.__init__: memories created
empty (lines 104-108), curr_state = None and ticker = None (lines 133-136). -/
def initial_graph_state : TradingAgentsGraphState :=
  { curr_state := none
    ticker := none
    bull_memory := []
    bear_memory := []
    trader_memory := []
    invest_judge_memory := []
    risk_manager_memory := [] }

/-- reflect_and_remember from trading_graph.py (lines 295-326): five
reflector calls in sequence, each receiving self.curr_state, with no
exception handling around any of them, then the updated memories.  The
Except bind mirrors Python control flow: a raise in one call propagates and
the later calls do not run.  (In-place memory growth performed by calls that
completed before a later raise is not modelled; no claim depends on it.) -/
def reflect_and_remember (rb rr rt ri rm : Reflector)
    (o : TradingAgentsGraphState) (returns_losses : Int) :
    Except String TradingAgentsGraphState :=
  Except.bind (rb o.curr_state returns_losses o.bull_memory) (fun bull_mem =>
  Except.bind (rr o.curr_state returns_losses o.bear_memory) (fun bear_mem =>
  Except.bind (rt o.curr_state returns_losses o.trader_memory) (fun trader_mem =>
  Except.bind (ri o.curr_state returns_losses o.invest_judge_memory) (fun invest_mem =>
  Except.bind (rm o.curr_state returns_losses o.risk_manager_memory) (fun risk_mem =>
  Except.ok { o with
    bull_memory := bull_mem
    bear_memory := bear_mem
    trader_memory := trader_mem
    invest_judge_memory := invest_mem
    risk_manager_memory := risk_mem })))))

/-- process_signal from trading_graph.py (lines 328-340): delegates the full
signal text to the signal processor (signal_processing.py, external to the
provided sources, passed as a function). -/
def process_signal (signal_processor : String → String)
    (full_signal : String) : String :=
  signal_processor full_signal

/-- propagate from trading_graph.py (lines 194-243), non-debug path: set the
ticker, build the initial state (propagation.py, external, passed as
create_initial_state), invoke the compiled graph (external, passed as
graph_invoke), store the final state in curr_state, and return the final
state together with process_signal of its final_trade_decision.
_log_state (on-disk run logging) is out of scope and not modelled. -/
def propagate (create_initial_state : String → String → AgentState)
    (graph_invoke : AgentState → AgentState)
    (signal_processor : String → String)
    (o : TradingAgentsGraphState) (company_name trade_date : String) :
    TradingAgentsGraphState × AgentState × String :=
  let o1 := { o with ticker := some company_name }
  let init_agent_state := create_initial_state company_name trade_date
  let final_state := graph_invoke init_agent_state
  let o2 := { o1 with curr_state := some final_state }
  (o2, final_state,
    process_signal signal_processor final_state.final_trade_decision)

/-- Nodes of the risk-debate phase of the graph, used to model the routing
around the risk judge. -/
inductive RiskFlowNode where
  | riskyDebator
  | safeDebator
  | neutralDebator
  | riskJudge
  | terminal
deriving Repr, DecidableEq

/-- Modelled from the spec: the risk-debate routing policy lives in
graph/conditional_logic.py and graph/setup.py, which are not among the
provided sources.  Spec 4.2 rule 3: fixed round-robin risky, safe, neutral,
where the latest-speaker tag determines the next in sequence, and route to
the risk judge once count is at least 3 times max_risk_rounds; spec 4.3/4.5:
the Risk Judge is the terminal node of its debate loop and never re-enters
it, so its outgoing edge leaves the loop unconditionally. -/
def risk_flow_successor (max_risk_rounds : Nat) (s : RiskDebateState)
    (current : RiskFlowNode) : RiskFlowNode :=
  match current with
  | RiskFlowNode.riskJudge => RiskFlowNode.terminal
  | RiskFlowNode.terminal => RiskFlowNode.terminal
  | _ =>
    if 3 * max_risk_rounds ≤ s.count then
      RiskFlowNode.riskJudge
    else if s.latest_speaker = "Risky" then
      RiskFlowNode.safeDebator
    else if s.latest_speaker = "Safe" then
      RiskFlowNode.neutralDebator
    else
      RiskFlowNode.riskyDebator

/-- A concrete investment debate state used by the concrete theorems. -/
def sample_invest_debate_state : InvestDebateState :=
  { history := "H", bull_history := "BH", bear_history := "RH",
    current_response := "CR", judge_decision := "", count := 0 }

/-- A concrete risk debate state used by the concrete theorems. -/
def sample_risk_debate_state : RiskDebateState :=
  { history := "RDH", risky_history := "RK", safe_history := "SF",
    neutral_history := "NT", latest_speaker := "Neutral",
    current_risky_response := "CRR", current_safe_response := "CSR",
    current_neutral_response := "CNR", judge_decision := "", count := 3 }

/-- A concrete agent state used by the concrete theorems. -/
def sample_state : AgentState :=
  { company_of_interest := "NVDA", trade_date := "2024-05-10",
    market_report := "MKT", sentiment_report := "SENT",
    news_report := "NEWS", fundamentals_report := "FUND",
    investment_debate_state := sample_invest_debate_state,
    risk_debate_state := sample_risk_debate_state,
    investment_plan := "PLAN", trader_investment_plan := "TPLAN",
    final_trade_decision := "", messages := [] }

/-- Claim C1: when the risk-judge node builds the current-situation text used
for memory recall, the fundamentals component is read from the news_report
field, so the situation text passed to get_memories equals the concatenation
of market_report, sentiment_report, news_report, and news_report again, and
the fundamentals_report field does not appear in it (replacing it with any
value leaves the memory query unchanged). -/
theorem risk_manager_situation_reads_news_for_fundamentals
    (memory : Memory) (response_content : String) (state : AgentState)
    (f : String) :
    (risk_manager_node memory response_content state).memory_calls =
      [(state.market_report ++ "\n\n" ++ state.sentiment_report ++ "\n\n"
        ++ state.news_report ++ "\n\n" ++ state.news_report, 2)] ∧
    (risk_manager_node memory response_content
        { state with fundamentals_report := f }).memory_calls =
      (risk_manager_node memory response_content state).memory_calls :=
  ⟨rfl, rfl⟩

/-- Claim C2: one invocation of the bull researcher node or the bear
researcher node returns an investment-debate-state patch whose count equals
the input count plus exactly 1, and one invocation of the safe risk-debator
node returns a risk-debate-state patch whose count equals the input count
plus exactly 1. -/
theorem debate_turn_counter_increments_by_one
    (memory : Memory) (bull_response bear_response safe_response : String)
    (state : AgentState) :
    (bull_node memory bull_response state).count =
      state.investment_debate_state.count + 1 ∧
    (bear_node memory bear_response state).count =
      state.investment_debate_state.count + 1 ∧
    (safe_node safe_response state).count =
      state.risk_debate_state.count + 1 :=
  ⟨rfl, rfl, rfl⟩

/-- Claim C3: the risk-judge node queries its memory with exactly
n_matches = 2, writes the judge_decision resolution field, leaves
risky_history, safe_history, neutral_history, the combined history, the
three current-response slots and the turn counter equal to their input
values, and its successor in the (spec-modelled) risk-debate routing is the
terminal node, so it never re-enters the debate loop. -/
theorem risk_judge_frame_and_never_reenters
    (memory : Memory) (response_content : String) (state : AgentState)
    (max_risk_rounds : Nat) :
    (risk_manager_node memory response_content state).memory_calls =
      [(risk_manager_curr_situation state, 2)] ∧
    (risk_manager_node memory response_content
        state).risk_debate_state.judge_decision = response_content ∧
    (risk_manager_node memory response_content
        state).risk_debate_state.risky_history =
      state.risk_debate_state.risky_history ∧
    (risk_manager_node memory response_content
        state).risk_debate_state.safe_history =
      state.risk_debate_state.safe_history ∧
    (risk_manager_node memory response_content
        state).risk_debate_state.neutral_history =
      state.risk_debate_state.neutral_history ∧
    (risk_manager_node memory response_content
        state).risk_debate_state.history =
      state.risk_debate_state.history ∧
    (risk_manager_node memory response_content
        state).risk_debate_state.current_risky_response =
      state.risk_debate_state.current_risky_response ∧
    (risk_manager_node memory response_content
        state).risk_debate_state.current_safe_response =
      state.risk_debate_state.current_safe_response ∧
    (risk_manager_node memory response_content
        state).risk_debate_state.current_neutral_response =
      state.risk_debate_state.current_neutral_response ∧
    (risk_manager_node memory response_content
        state).risk_debate_state.count = state.risk_debate_state.count ∧
    risk_flow_successor max_risk_rounds
      (risk_manager_node memory response_content state).risk_debate_state
      RiskFlowNode.riskJudge = RiskFlowNode.terminal :=
  ⟨rfl, rfl, rfl, rfl, rfl, rfl, rfl, rfl, rfl, rfl, rfl⟩

/-- Claim C10: the risk-judge patch sets the final_trade_decision of the run
and the judge_decision of the risk debate state to the identical response
content, and sets the latest_speaker tag to "Judge". -/
theorem risk_judge_decision_fields
    (memory : Memory) (response_content : String) (state : AgentState) :
    (risk_manager_node memory response_content state).final_trade_decision =
      response_content ∧
    (risk_manager_node memory response_content
        state).risk_debate_state.judge_decision = response_content ∧
    (risk_manager_node memory response_content
        state).risk_debate_state.latest_speaker = "Judge" :=
  ⟨rfl, rfl, rfl⟩

/-- A reflector whose lesson derivation raises. -/
def failing_bull_reflector : Reflector :=
  fun _ _ _ => Except.error "bull reflection failed"

/-- A reflector that would append a bear lesson if it were attempted. -/
def recording_bear_reflector : Reflector :=
  fun _ _ m => Except.ok ({ recommendation := "bear lesson" } :: m)

/-- A reflector that succeeds and leaves its memory unchanged. -/
def ok_reflector : Reflector :=
  fun _ _ m => Except.ok m

/-- Claim C4 counterexample: with the bull reflector raising and the bear
reflector ready to append a lesson, reflect_and_remember on a concrete
post-run orchestrator state returns the bull error: the per-role failure is
raised out of the call, not reported, and no updated memories (in particular
no bear lesson) are produced. -/
theorem reflect_failure_aborts_remaining_roles :
    reflect_and_remember failing_bull_reflector recording_bear_reflector
      ok_reflector ok_reflector ok_reflector
      { initial_graph_state with curr_state := some sample_state } 0 =
    Except.error "bull reflection failed" :=
  rfl

/-- Claim C4 amended: an exception raised while deriving one lesson
propagates out of reflect_and_remember and aborts the remaining roles: with
the bull and bear reflectors succeeding (with arbitrary lesson derivations)
and the trader reflector raising e, the whole call returns the error e, for
every choice of the investment-judge and risk-manager reflectors, which are
therefore never attempted. -/
theorem reflect_failure_propagates_sequentially
    (gb gr : Option AgentState → Int → Mem → Mem) (e : String)
    (ri rm : Reflector) (o : TradingAgentsGraphState) (v : Int) :
    reflect_and_remember
      (fun st x m => Except.ok (gb st x m))
      (fun st x m => Except.ok (gr st x m))
      (fun _ _ _ => Except.error e) ri rm o v = Except.error e :=
  rfl

/-- A reflector recording whether it was handed an absent state. -/
def state_recording_reflector : Reflector :=
  fun st _ m =>
    Except.ok
      ({ recommendation :=
          match st with
          | none => "invoked with absent state"
          | some _ => "invoked with present state" } :: m)

/-- Claim C5 counterexample: on the freshly constructed orchestrator state
(curr_state = None, before any propagate), reflect_and_remember does not
fail with a precondition error: it succeeds, and every role reflector is
invoked with the absent state. -/
theorem reflect_before_any_run_proceeds_with_absent_state :
    reflect_and_remember state_recording_reflector state_recording_reflector
      state_recording_reflector state_recording_reflector
      state_recording_reflector initial_graph_state 0 =
    Except.ok
      { curr_state := none, ticker := none,
        bull_memory := [{ recommendation := "invoked with absent state" }],
        bear_memory := [{ recommendation := "invoked with absent state" }],
        trader_memory := [{ recommendation := "invoked with absent state" }],
        invest_judge_memory :=
          [{ recommendation := "invoked with absent state" }],
        risk_manager_memory :=
          [{ recommendation := "invoked with absent state" }] } :=
  rfl

/-- Claim C5 amended: reflect_and_remember performs no precondition check:
called on the freshly constructed orchestrator state, whose curr_state is
None because no propagate has completed, it proceeds and hands the absent
state to each of the five role reflectors in sequence. -/
theorem reflect_before_any_run_no_precondition_check
    (rb rr rt ri rm : Reflector) (v : Int) :
    initial_graph_state.curr_state = none ∧
    reflect_and_remember rb rr rt ri rm initial_graph_state v =
      Except.bind (rb none v []) (fun bull_mem =>
      Except.bind (rr none v []) (fun bear_mem =>
      Except.bind (rt none v []) (fun trader_mem =>
      Except.bind (ri none v []) (fun invest_mem =>
      Except.bind (rm none v []) (fun risk_mem =>
      Except.ok
        { curr_state := none, ticker := none,
          bull_memory := bull_mem, bear_memory := bear_mem,
          trader_memory := trader_mem, invest_judge_memory := invest_mem,
          risk_manager_memory := risk_mem }))))) :=
  ⟨rfl, rfl⟩

/-- A generation chain that returns an empty response with no tool calls. -/
def noop_chain : List Tool → List LLMResult → LLMResult :=
  fun _ _ => { content := "", tool_calls := [] }

/-- Claim C6 counterexample: the market analyst reads the shared config at
each invocation, so two invocations of the same analyst on the same state
bind different tool lists when the online_tools flag differs between them —
the capability list is not fixed once at run start. -/
theorem market_analyst_tools_change_with_flag_mid_run :
    (market_analyst_node ⟨⟨true⟩⟩ noop_chain sample_state).tools ≠
    (market_analyst_node ⟨⟨false⟩⟩ noop_chain sample_state).tools := by
  decide

/-- Claim C6 amended: the tool list an analyst binds is selected by reading
the shared config at invocation time, not once per run: every invocation of
the market or fundamentals analyst binds the online tool list exactly when
the config read at that invocation has online_tools true, and the offline
list otherwise. -/
theorem analyst_tools_follow_flag_at_invocation
    (toolkit : Toolkit)
    (chain_invoke : List Tool → List LLMResult → LLMResult)
    (state : AgentState) :
    (market_analyst_node toolkit chain_invoke state).tools =
      (if toolkit.config.online_tools then
        [Tool.get_YFin_data_online,
         Tool.get_stockstats_indicators_report_online]
      else
        [Tool.get_YFin_data, Tool.get_stockstats_indicators_report]) ∧
    (fundamentals_analyst_node toolkit chain_invoke state).tools =
      (if toolkit.config.online_tools then
        [Tool.get_fundamentals_openai]
      else
        [Tool.get_finnhub_company_insider_sentiment,
         Tool.get_finnhub_company_insider_transactions,
         Tool.get_simfin_balance_sheet,
         Tool.get_simfin_cashflow,
         Tool.get_simfin_income_stmt]) :=
  ⟨rfl, rfl⟩

/-- Claim C7: propagate returns the pair of the terminal state produced by
the graph on the initial state and the action label obtained by applying the
signal processor to the terminal state final_trade_decision; it stores the
terminal state as curr_state, which is exactly the state a subsequent
reflect_and_remember call hands to every role reflector. -/
theorem propagate_returns_decision_and_stores_state
    (create_initial_state : String → String → AgentState)
    (graph_invoke : AgentState → AgentState)
    (signal_processor : String → String)
    (o : TradingAgentsGraphState) (company_name trade_date : String) :
    (propagate create_initial_state graph_invoke signal_processor o
        company_name trade_date).2.1 =
      graph_invoke (create_initial_state company_name trade_date) ∧
    (propagate create_initial_state graph_invoke signal_processor o
        company_name trade_date).2.2 =
      signal_processor
        ((propagate create_initial_state graph_invoke signal_processor o
            company_name trade_date).2.1).final_trade_decision ∧
    ((propagate create_initial_state graph_invoke signal_processor o
        company_name trade_date).1).curr_state =
      some ((propagate create_initial_state graph_invoke signal_processor o
        company_name trade_date).2.1) ∧
    ((propagate create_initial_state graph_invoke signal_processor o
        company_name trade_date).1).ticker = some company_name ∧
    (∀ (rb rr rt ri rm : Reflector) (v : Int),
      reflect_and_remember rb rr rt ri rm
        (propagate create_initial_state graph_invoke signal_processor o
          company_name trade_date).1 v =
      Except.bind
        (rb (some ((propagate create_initial_state graph_invoke
            signal_processor o company_name trade_date).2.1)) v o.bull_memory)
        (fun bull_mem =>
      Except.bind
        (rr (some ((propagate create_initial_state graph_invoke
            signal_processor o company_name trade_date).2.1)) v o.bear_memory)
        (fun bear_mem =>
      Except.bind
        (rt (some ((propagate create_initial_state graph_invoke
            signal_processor o company_name trade_date).2.1)) v
          o.trader_memory)
        (fun trader_mem =>
      Except.bind
        (ri (some ((propagate create_initial_state graph_invoke
            signal_processor o company_name trade_date).2.1)) v
          o.invest_judge_memory)
        (fun invest_mem =>
      Except.bind
        (rm (some ((propagate create_initial_state graph_invoke
            signal_processor o company_name trade_date).2.1)) v
          o.risk_manager_memory)
        (fun risk_mem =>
      Except.ok
        { (propagate create_initial_state graph_invoke signal_processor o
            company_name trade_date).1 with
          bull_memory := bull_mem, bear_memory := bear_mem,
          trader_memory := trader_mem, invest_judge_memory := invest_mem,
          risk_manager_memory := risk_mem })))))) :=
  ⟨rfl, rfl, rfl, rfl, fun _ _ _ _ _ _ => rfl⟩

/-- Claim C8: a bull, bear, or safe debator patch extends the combined
history and the own side history by appending the nonempty formatted
argument (so the old value is a proper prefix of the new value), and passes
every other side history through unchanged. -/
theorem debate_histories_append_only
    (memory : Memory) (bull_response bear_response safe_response : String)
    (state : AgentState) :
    (∃ a : String, 0 < a.length ∧
      (bull_node memory bull_response state).history =
        state.investment_debate_state.history ++ a ∧
      (bull_node memory bull_response state).bull_history =
        state.investment_debate_state.bull_history ++ a) ∧
    (bull_node memory bull_response state).bear_history =
      state.investment_debate_state.bear_history ∧
    (∃ a : String, 0 < a.length ∧
      (bear_node memory bear_response state).history =
        state.investment_debate_state.history ++ a ∧
      (bear_node memory bear_response state).bear_history =
        state.investment_debate_state.bear_history ++ a) ∧
    (bear_node memory bear_response state).bull_history =
      state.investment_debate_state.bull_history ∧
    (∃ a : String, 0 < a.length ∧
      (safe_node safe_response state).history =
        state.risk_debate_state.history ++ a ∧
      (safe_node safe_response state).safe_history =
        state.risk_debate_state.safe_history ++ a) ∧
    (safe_node safe_response state).risky_history =
      state.risk_debate_state.risky_history ∧
    (safe_node safe_response state).neutral_history =
      state.risk_debate_state.neutral_history := by
  refine ⟨⟨"\n" ++ ("Bull Analyst: " ++ bull_response), ?_, ?_, ?_⟩, rfl,
          ⟨"\n" ++ ("Bear Analyst: " ++ bear_response), ?_, ?_, ?_⟩, rfl,
          ⟨"\n" ++ ("Safe Analyst: " ++ safe_response), ?_, ?_, ?_⟩, rfl, rfl⟩
  all_goals
    first
    | (rw [String.length_append]
       have h : ("\n" : String).length = 1 := by decide
       omega)
    | exact String.append_assoc _ _ _

/-- A generation response that requests one tool call and has empty text. -/
def tool_call_only_result : LLMResult :=
  { content := "", tool_calls := [⟨"get_YFin_data"⟩] }

/-- A generation chain that always returns tool_call_only_result. -/
def tool_call_only_chain : List Tool → List LLMResult → LLMResult :=
  fun _ _ => tool_call_only_result

/-- Claim C9 counterexample: on a response with one tool-call request and
empty text content, the market analyst patch report equals the response
content even though the tool-call count is not zero, so the report equals
the content without the response containing zero tool calls — the stated
equivalence fails in this direction. -/
theorem analyst_report_equals_content_despite_tool_calls :
    (market_analyst_node ⟨⟨true⟩⟩ tool_call_only_chain
        sample_state).market_report = tool_call_only_result.content ∧
    tool_call_only_result.tool_calls.length = 1 :=
  ⟨rfl, rfl⟩

/-- Claim C9 amended: the report field of an analyst patch equals the
response content when the response contains zero tool-call requests, and is
the empty string when it contains one or more (coinciding with the content
only when the content is empty); in either case the message-log patch is
exactly the one response message. -/
theorem analyst_report_and_single_message_patch
    (toolkit : Toolkit)
    (chain_invoke : List Tool → List LLMResult → LLMResult)
    (state : AgentState) :
    (market_analyst_node toolkit chain_invoke state).messages =
      [chain_invoke (market_analyst_node toolkit chain_invoke state).tools
        state.messages] ∧
    ((chain_invoke (market_analyst_node toolkit chain_invoke state).tools
          state.messages).tool_calls.length = 0 ∧
      (market_analyst_node toolkit chain_invoke state).market_report =
        (chain_invoke (market_analyst_node toolkit chain_invoke state).tools
          state.messages).content ∨
     0 < (chain_invoke (market_analyst_node toolkit chain_invoke state).tools
          state.messages).tool_calls.length ∧
      (market_analyst_node toolkit chain_invoke state).market_report = "") ∧
    (fundamentals_analyst_node toolkit chain_invoke state).messages =
      [chain_invoke
        (fundamentals_analyst_node toolkit chain_invoke state).tools
        state.messages] ∧
    ((chain_invoke
          (fundamentals_analyst_node toolkit chain_invoke state).tools
          state.messages).tool_calls.length = 0 ∧
      (fundamentals_analyst_node toolkit chain_invoke
          state).fundamentals_report =
        (chain_invoke
          (fundamentals_analyst_node toolkit chain_invoke state).tools
          state.messages).content ∨
     0 < (chain_invoke
          (fundamentals_analyst_node toolkit chain_invoke state).tools
          state.messages).tool_calls.length ∧
      (fundamentals_analyst_node toolkit chain_invoke
          state).fundamentals_report = "") := by
  refine ⟨rfl, ?_, rfl, ?_⟩
  · rcases Nat.eq_zero_or_pos
        (chain_invoke (market_analyst_node toolkit chain_invoke state).tools
          state.messages).tool_calls.length with h | h
    · left
      refine ⟨h, ?_⟩
      show (if (chain_invoke
            (market_analyst_node toolkit chain_invoke state).tools
            state.messages).tool_calls.length = 0 then
          (chain_invoke (market_analyst_node toolkit chain_invoke state).tools
            state.messages).content
        else "") =
        (chain_invoke (market_analyst_node toolkit chain_invoke state).tools
          state.messages).content
      rw [if_pos h]
    · right
      refine ⟨h, ?_⟩
      show (if (chain_invoke
            (market_analyst_node toolkit chain_invoke state).tools
            state.messages).tool_calls.length = 0 then
          (chain_invoke (market_analyst_node toolkit chain_invoke state).tools
            state.messages).content
        else "") = ""
      rw [if_neg (Nat.pos_iff_ne_zero.mp h)]
  · rcases Nat.eq_zero_or_pos
        (chain_invoke
          (fundamentals_analyst_node toolkit chain_invoke state).tools
          state.messages).tool_calls.length with h | h
    · left
      refine ⟨h, ?_⟩
      show (if (chain_invoke
            (fundamentals_analyst_node toolkit chain_invoke state).tools
            state.messages).tool_calls.length = 0 then
          (chain_invoke
            (fundamentals_analyst_node toolkit chain_invoke state).tools
            state.messages).content
        else "") =
        (chain_invoke
          (fundamentals_analyst_node toolkit chain_invoke state).tools
          state.messages).content
      rw [if_pos h]
    · right
      refine ⟨h, ?_⟩
      show (if (chain_invoke
            (fundamentals_analyst_node toolkit chain_invoke state).tools
            state.messages).tool_calls.length = 0 then
          (chain_invoke
            (fundamentals_analyst_node toolkit chain_invoke state).tools
            state.messages).content
        else "") = ""
      rw [if_neg (Nat.pos_iff_ne_zero.mp h)]
